import Mathlib

/-!
# SentinelDesk — audit-event ingestion and detection-rule evaluation pipeline

Shallow embedding of the core of the `sentineldesk` repository
(`src/api/app/{models,audit,detections,routes_admin,routes_tickets}.py`).

Modelling conventions:
* Timestamps are integers (seconds); `datetime.utcnow()` at a given point of
  execution is an explicit `now : Int` parameter.  `timedelta(minutes=m)` is
  `minutes m = m * 60`.
* SQLAlchemy rows become structures; nullable columns become `Option`.
* The database session becomes an explicit `DB` state record; autoincrement
  primary keys are modelled by `next…Id` counters assigned at insert.
* Python truthiness on nullable strings (`if event.ip:`) is `strTruthy`
  (false for `None` and for `""`); on nullable integers it is `natTruthy`
  (false for `None` and for `0`).
* The `context` dict passed to `_create_alert` (JSON-serialised in the
  Python column) is kept structured as an association list of `CtxVal`.
* HTTP exceptions raised by route handlers become `Except (ApiError × DB) …`:
  an error carries the database state at the moment of the raise, so that
  "no mutation happened before the error" is expressible.
-/

/-- A row of `audit_events` (`models.py`, class `AuditEvent`). -/
structure AuditEvent where
  id : Nat
  ts : Int
  actor_sub : Option String
  actor_upn : Option String
  ip : Option String
  action : String
  target : Option String
  result : String
  reason : Option String
  deriving Repr, DecidableEq

/-- A value stored in an alert's `context` payload (a JSON scalar, nullable
string, or list of strings, as produced by `detections.py`). -/
inductive CtxVal where
  | str (s : String)
  | optStr (s : Option String)
  | num (n : Nat)
  | strList (l : List String)
  deriving Repr, DecidableEq

/-- A row of `security_alerts` (`models.py`, class `SecurityAlert`). -/
structure SecurityAlert where
  id : Nat
  ts : Int
  rule_id : String
  severity : String
  context : List (String × CtxVal)
  triage_status : String
  trigger_event_id : Option Nat
  ticket_id : Option Nat
  deriving Repr, DecidableEq

/-- A row of `tickets` (`models.py`, class `Ticket`); comments are irrelevant
to the claims and omitted. -/
structure Ticket where
  id : Nat
  title : String
  body : String
  status : String
  owner_sub : String
  created_at : Int
  deriving Repr, DecidableEq

/-- The persistent store: the two append-mostly tables plus tickets, with
autoincrement counters for primary keys. -/
structure DB where
  events : List AuditEvent
  alerts : List SecurityAlert
  tickets : List Ticket
  nextEventId : Nat
  nextAlertId : Nat
  nextTicketId : Nat
  deriving Repr, DecidableEq

/-- Python truthiness of a nullable string: `None` and `""` are falsy. -/
def strTruthy : Option String → Bool
  | none => false
  | some s => !(s == "")

/-- Python truthiness of a nullable integer: `None` and `0` are falsy. -/
def natTruthy : Option Nat → Bool
  | none => false
  | some n => !(n == 0)

/-- `timedelta(minutes=m)` in seconds. -/
def minutes (m : Int) : Int := m * 60

/-- Substring test: Python's `"admin:" in target` / SQL `LIKE '%pat%'`. -/
def strContains (s pat : String) : Bool :=
  (List.range (s.length + 1)).any (fun i => pat.toList.isPrefixOf (s.toList.drop i))

/-- Rule 1 row filter (`detections.py` lines 28–34): same action
`auth:token_invalid`, same `ip`, `ts >= cutoff`. -/
def authFailMatch (ip : String) (cutoff : Int) (e : AuditEvent) : Bool :=
  e.action == "auth:token_invalid" && e.ip == some ip && cutoff ≤ e.ts

/-- Rule 1 in-window count. -/
def authFailBurstCount (events : List AuditEvent) (ip : String) (cutoff : Int) : Nat :=
  (events.filter (authFailMatch ip cutoff)).length

/-- Rule 3 row filter (`detections.py` lines 48–53): action `authz:denied`,
same `actor_sub`, `ts >= cutoff`. -/
def authzDeniedMatch (actor : Option String) (cutoff : Int) (e : AuditEvent) : Bool :=
  e.action == "authz:denied" && e.actor_sub == actor && cutoff ≤ e.ts

/-- Rule 3 in-window count. -/
def authzDeniedCount (events : List AuditEvent) (actor : Option String) (cutoff : Int) : Nat :=
  (events.filter (authzDeniedMatch actor cutoff)).length

/-- Rule 4 row filter (`detections.py` lines 65–70): same `actor_sub`,
`ip IS NOT NULL`, `ts >= cutoff`.  Note: the query does NOT filter on the
action column. -/
def travelIpMatch (actor : String) (cutoff : Int) (e : AuditEvent) : Bool :=
  e.actor_sub == some actor && !(e.ip == none) && cutoff ≤ e.ts

/-- Rule 4 `distinct(AuditEvent.ip)` query result: the distinct non-null IP
values among the matching rows. -/
def distinctTravelIps (events : List AuditEvent) (actor : String) (cutoff : Int) : List String :=
  ((events.filter (travelIpMatch actor cutoff)).filterMap (fun e => e.ip)).dedup

/-- Rule 4 distinct in-window IPs: the query result after the Python
comprehension `[ip[0] for ip in recent_ips if ip[0]]`, which drops falsy
values (`""`). -/
def impossibleTravelIps (events : List AuditEvent) (actor : String) (cutoff : Int) : List String :=
  (distinctTravelIps events actor cutoff).filter (fun s => !(s == ""))

/-- Rule 5 row filter (`detections.py` lines 84–89): action `authz:denied`,
same `actor_sub`, `target LIKE '%admin:%'`, `ts >= cutoff`. -/
def adminDenialMatch (actor : Option String) (cutoff : Int) (e : AuditEvent) : Bool :=
  e.action == "authz:denied" && e.actor_sub == actor &&
    (match e.target with
      | some t => strContains t "admin:"
      | none => false) &&
    cutoff ≤ e.ts

/-- Rule 5 in-window count. -/
def adminDenialCount (events : List AuditEvent) (actor : Option String) (cutoff : Int) : Nat :=
  (events.filter (adminDenialMatch actor cutoff)).length

/-- The argument tuple of a `_create_alert` call. -/
structure AlertReq where
  rule_id : String
  severity : String
  context : List (String × CtxVal)
  trigger_event_id : Option Nat
  deriving Repr, DecidableEq

/-- `_create_alert` (`detections.py` lines 9–19): append a `SecurityAlert`
row (default `triage_status = "new"`, fresh id, `ts` assigned at write). -/
def _create_alert (db : DB) (now : Int) (r : AlertReq) : DB :=
  { db with
    alerts := db.alerts ++
      [{ id := db.nextAlertId, ts := now, rule_id := r.rule_id,
          severity := r.severity, context := r.context,
          triage_status := "new", trigger_event_id := r.trigger_event_id,
          ticket_id := none }],
    nextAlertId := db.nextAlertId + 1 }

/-- Rule 1 of `run_detections_for_event` (`detections.py` lines 26–36):
Auth failure burst from same IP. -/
def rule1Alerts (events : List AuditEvent) (now : Int) (event : AuditEvent) :
    List AlertReq :=
  if event.action == "auth:token_invalid" && strTruthy event.ip then
    match event.ip with
    | some p =>
        let recent := authFailBurstCount events p (now - minutes 5)
        if 10 ≤ recent then
          [⟨"AUTH_FAIL_BURST", "high",
            [("ip", .optStr event.ip), ("count_5m", .num recent)], some event.id⟩]
        else []
    | none => []
  else []

/-- Rule 3 of `run_detections_for_event` (`detections.py` lines 45–59):
Repeated authorization failures. -/
def rule3Alerts (events : List AuditEvent) (now : Int) (event : AuditEvent) :
    List AlertReq :=
  if event.action == "authz:denied" && strTruthy event.actor_sub then
    let recent := authzDeniedCount events event.actor_sub (now - minutes 10)
    if 5 ≤ recent then
      [⟨"REPEATED_AUTHZ_DENIED", "med",
        [("actor_sub", .optStr event.actor_sub), ("count_10m", .num recent)],
        some event.id⟩]
    else []
  else []

/-- Rule 4 of `run_detections_for_event` (`detections.py` lines 61–78):
Impossible Travel — same user, different IPs, within 5 minutes. -/
def rule4Alerts (events : List AuditEvent) (now : Int) (event : AuditEvent) :
    List AlertReq :=
  if event.action == "auth:login" && strTruthy event.actor_sub && strTruthy event.ip then
    match event.actor_sub with
    | some a =>
        let unique_ips := impossibleTravelIps events a (now - minutes 5)
        if 2 ≤ unique_ips.length then
          [⟨"IMPOSSIBLE_TRAVEL", "high",
            [("actor_sub", .optStr event.actor_sub), ("ips", .strList unique_ips),
              ("window_minutes", .num 5)], some event.id⟩]
        else []
    | none => []
  else []

/-- Rule 5 of `run_detections_for_event` (`detections.py` lines 80–96):
Privilege escalation attempts — multiple admin endpoint denials. -/
def rule5Alerts (events : List AuditEvent) (now : Int) (event : AuditEvent) :
    List AlertReq :=
  if event.action == "authz:denied" && strTruthy event.target &&
      (match event.target with
        | some t => strContains t "admin:"
        | none => false) then
    let admin_denials := adminDenialCount events event.actor_sub (now - minutes 10)
    if 3 ≤ admin_denials then
      [⟨"PRIVILEGE_ESCALATION_ATTEMPT", "high",
        [("actor_sub", .optStr event.actor_sub),
          ("denied_admin_actions", .num admin_denials),
          ("window_minutes", .num 10)], some event.id⟩]
    else []
  else []

/-- Rule 6, first half (`detections.py` lines 98–105): use of the insecure
endpoint always fires. -/
def rule6aAlerts (event : AuditEvent) : List AlertReq :=
  if event.action == "tickets:read_insecure" then
    [⟨"INSECURE_IDOR_ACCESS", "high",
      [("actor_sub", .optStr event.actor_sub), ("target", .optStr event.target),
        ("endpoint", .str "insecure_endpoint")], some event.id⟩]
  else []

/-- Rule 6, second half (`detections.py` lines 107–112): blocked IDOR
attempts always fire. -/
def rule6bAlerts (event : AuditEvent) : List AlertReq :=
  if event.action == "authz:denied" && event.reason == some "IDOR prevented" then
    [⟨"BLOCKED_IDOR_ATTEMPT", "medium",
      [("actor_sub", .optStr event.actor_sub), ("target", .optStr event.target),
        ("reason", .str "access_control_enforced")], some event.id⟩]
  else []

/-- `run_detections_for_event` (`detections.py` lines 22–112), as the list of
`_create_alert` calls it makes, in source order.  The rule queries read only
`audit_events` and the creations write only `security_alerts`, so evaluating
all queries against the entry trail is exact. -/
def detectionAlerts (events : List AuditEvent) (now : Int) (event : AuditEvent) :
    List AlertReq :=
  rule1Alerts events now event ++ rule3Alerts events now event ++
    rule4Alerts events now event ++ rule5Alerts events now event ++
    rule6aAlerts event ++ rule6bAlerts event

/-- `run_detections_for_event` as a state transformer: persist each emitted
alert via `_create_alert`. -/
def run_detections_for_event (db : DB) (now : Int) (event : AuditEvent) : DB :=
  (detectionAlerts db.events now event).foldl (fun d r => _create_alert d now r) db

/-- The keyword arguments of `write_audit` / `audit_and_detect` (`audit.py`). -/
structure AuditInput where
  actor_sub : Option String
  actor_upn : Option String
  ip : Option String
  action : String
  target : Option String
  result : String
  reason : Option String := none
  deriving Repr, DecidableEq

/-- Append a new `AuditEvent` row: id and `ts` assigned at write time
(`server_default func.now()`), durably committed. -/
def write_event (db : DB) (now : Int) (inp : AuditInput) : DB × AuditEvent :=
  let ev : AuditEvent :=
    { id := db.nextEventId, ts := now, actor_sub := inp.actor_sub,
      actor_upn := inp.actor_upn, ip := inp.ip, action := inp.action,
      target := inp.target, result := inp.result, reason := inp.reason }
  ({ db with events := db.events ++ [ev], nextEventId := db.nextEventId + 1 }, ev)

/-- `write_audit` (`audit.py` lines 4–25). -/
def write_audit (db : DB) (now : Int) (inp : AuditInput) : DB :=
  (write_event db now inp).1

/-- `audit_and_detect` (`audit.py` lines 28–56): commit the event, refresh it
(obtaining its assigned id/ts), then run the detection rules on it. -/
def audit_and_detect (db : DB) (now : Int) (inp : AuditInput) : DB :=
  let p := write_event db now inp
  run_detections_for_event p.1 now p.2

/-- `db.query(AuditEvent).order_by(desc(AuditEvent.id)).first()`: the row with
the maximal id (ids are unique in any reachable state). -/
def maxIdEvent : List AuditEvent → Option AuditEvent
  | [] => none
  | e :: es => some (es.foldl (fun acc x => if acc.id < x.id then x else acc) e)

/-- The local `audit_and_detect` helper defined identically in
`routes_tickets.py` (lines 29–34) and `routes_admin.py` (lines 121–126):
`write_audit`, then re-query the event with the maximal id and run the
detection rules on it.  (In `routes_admin.py` this module-level definition
shadows the import from `audit.py` for all calls inside that module.) -/
def audit_and_detect_routes (db : DB) (now : Int) (inp : AuditInput) : DB :=
  let db1 := write_audit db now inp
  match maxIdEvent db1.events with
  | some last => run_detections_for_event db1 now last
  | none => db1

/-- The error taxonomy of the route handlers (HTTP 403/404/400). -/
inductive ApiError where
  | NotFound
  | InvalidStatus
  | Forbidden
  deriving Repr, DecidableEq

/-- Rendering of a context value inside the escalation ticket body (the
Python column holds `json.dumps(context)`; the exact text is irrelevant to
every claim). -/
def ctxValString : CtxVal → String
  | .str s => s
  | .optStr none => "None"
  | .optStr (some s) => s
  | .num n => toString n
  | .strList l => String.intercalate ", " l

/-- Rendering of an alert context inside the escalation ticket body. -/
def ctxString (c : List (String × CtxVal)) : String :=
  String.intercalate ", " (c.map (fun p => p.1 ++ ": " ++ ctxValString p.2))

/-- The ticket body built by `escalate_alert` (`routes_admin.py` lines 81–89). -/
def escalationBody (a : SecurityAlert) : String :=
  "**Security Alert**: " ++ a.rule_id ++ "\n**Severity**: " ++ a.severity ++
    "\n**Context**:\n" ++ ctxString a.context ++ "\n\n**Time**: " ++ toString a.ts ++
    "\n**Source Alert ID**: " ++ toString a.id ++
    "\n\nThis ticket was automatically created from a security alert."

/-- `update_alert_status` (`routes_admin.py` lines 25–57).  `hasPerm` is the
outcome of `require_perm` (RBAC is outside this core); `body_status` is
`body.get("status")`.  An error carries the store state at the raise. -/
def update_alert_status (db : DB) (now : Int) (hasPerm : Bool)
    (sub upn ipAddr : Option String) (alert_id : Nat) (body_status : Option String) :
    Except (ApiError × DB) (DB × String) :=
  if !hasPerm then .error (.Forbidden, db)
  else
    match db.alerts.find? (fun a => a.id == alert_id) with
    | none => .error (.NotFound, db)
    | some alert =>
      match body_status with
      | none => .error (.InvalidStatus, db)
      | some new_status =>
        if !(["new", "investigating", "resolved", "false_positive"].contains new_status) then
          .error (.InvalidStatus, db)
        else
          let old_status := alert.triage_status
          let updated := db.alerts.map
            (fun a => if a.id == alert_id then { a with triage_status := new_status } else a)
          let db1 := { db with alerts := updated }
          let db2 := audit_and_detect_routes db1 now
            { actor_sub := sub, actor_upn := upn, ip := ipAddr,
              action := "alert:triage", target := some ("alert:" ++ toString alert_id),
              result := "success",
              reason := some ("changed status from " ++ old_status ++ " to " ++ new_status) }
          .ok (db2, new_status)

/-- `escalate_alert` (`routes_admin.py` lines 60–113).  `if alert.ticket_id:`
is Python truthiness (`natTruthy`); on an already-linked alert the handler
returns the existing ticket id without touching the store. -/
def escalate_alert (db : DB) (now : Int) (hasPerm : Bool)
    (sub upn ipAddr : Option String) (alert_id : Nat) :
    Except (ApiError × DB) (DB × Nat) :=
  if !hasPerm then .error (.Forbidden, db)
  else
    match db.alerts.find? (fun a => a.id == alert_id) with
    | none => .error (.NotFound, db)
    | some alert =>
      if natTruthy alert.ticket_id then .ok (db, alert.ticket_id.getD 0)
      else
        let title := "[Security Incident] " ++ alert.rule_id ++ " Detected"
        let ticket : Ticket :=
          { id := db.nextTicketId, title := title, body := escalationBody alert,
            status := "open", owner_sub := sub.getD "", created_at := now }
        let db1 :=
          { db with tickets := db.tickets ++ [ticket], nextTicketId := db.nextTicketId + 1 }
        let linked := db1.alerts.map
          (fun a => if a.id == alert_id then
              { a with ticket_id := some ticket.id, triage_status := "investigating" }
            else a)
        let db2 := { db1 with alerts := linked }
        let db3 := audit_and_detect_routes db2 now
          { actor_sub := sub, actor_upn := upn, ip := ipAddr,
            action := "alert:escalate", target := some ("ticket:" ++ toString ticket.id),
            result := "success", reason := some ("escalated alert " ++ toString alert_id) }
        .ok (db3, ticket.id)

/-- `clear_audit_log` (`routes_admin.py` lines 238–268): bulk-delete every
audit event, then record the purge itself via the local `audit_and_detect`
helper.  The forbidden path records an `authz:denied` event before raising. -/
def clear_audit_log (db : DB) (now : Int) (hasPerm : Bool)
    (sub upn ipAddr : Option String) :
    Except (ApiError × DB) (DB × Nat) :=
  if !hasPerm then
    let db1 := audit_and_detect_routes db now
      { actor_sub := sub, actor_upn := upn, ip := ipAddr,
        action := "authz:denied", target := some "admin:clear_audit",
        result := "fail", reason := some "forbidden" }
    .error (.Forbidden, db1)
  else
    let count := db.events.length
    let db1 := { db with events := [] }
    let db2 := audit_and_detect_routes db1 now
      { actor_sub := sub, actor_upn := upn, ip := ipAddr,
        action := "admin:clear_audit", target := some "audit_events",
        result := "success", reason := some ("deleted " ++ toString count ++ " events") }
    .ok (db2, count)

/-- `delete_alert` (`routes_admin.py` lines 310–327): delete one alert row.
No audit record is written on any path of this handler. -/
def delete_alert (db : DB) (now : Int) (hasPerm : Bool)
    (sub upn : Option String) (alert_id : Nat) :
    Except (ApiError × DB) DB :=
  if !hasPerm then .error (.Forbidden, db)
  else
    match db.alerts.find? (fun a => a.id == alert_id) with
    | none => .error (.NotFound, db)
    | some _ => .ok { db with alerts := db.alerts.eraseP (fun a => a.id == alert_id) }

/-- `clear_all_alerts` (`routes_admin.py` lines 330–343): bulk-delete every
alert row.  No audit record is written on any path of this handler. -/
def clear_all_alerts (db : DB) (now : Int) (hasPerm : Bool)
    (sub upn : Option String) :
    Except (ApiError × DB) (DB × Nat) :=
  if !hasPerm then .error (.Forbidden, db)
  else .ok ({ db with alerts := [] }, db.alerts.length)

/-- The query interface used by `run_detections_for_event`, with each store
round trip allowed to fail (`StorageUnavailable`, malformed data, …).  The
four fallible queries correspond, in order, to the `db.query(...)` calls of
rules 1, 3, 4 and 5 of `detections.py`. -/
structure QueryOracle where
  countAuthFail : String → Int → Except Unit Nat
  countAuthzDenied : Option String → Int → Except Unit Nat
  distinctActorIps : String → Int → Except Unit (List String)
  countAdminDenials : Option String → Int → Except Unit Nat

/-- Rule 1 with a fallible store. -/
def rule1E (q : QueryOracle) (now : Int) (event : AuditEvent) :
    Except Unit (List AlertReq) :=
  if event.action == "auth:token_invalid" && strTruthy event.ip then
    match event.ip with
    | some p => do
        let recent ← q.countAuthFail p (now - minutes 5)
        pure (if 10 ≤ recent then
          [⟨"AUTH_FAIL_BURST", "high",
            [("ip", .optStr event.ip), ("count_5m", .num recent)], some event.id⟩]
        else [])
    | none => pure []
  else pure []

/-- Rule 3 with a fallible store. -/
def rule3E (q : QueryOracle) (now : Int) (event : AuditEvent) :
    Except Unit (List AlertReq) :=
  if event.action == "authz:denied" && strTruthy event.actor_sub then do
    let recent ← q.countAuthzDenied event.actor_sub (now - minutes 10)
    pure (if 5 ≤ recent then
      [⟨"REPEATED_AUTHZ_DENIED", "med",
        [("actor_sub", .optStr event.actor_sub), ("count_10m", .num recent)],
        some event.id⟩]
    else [])
  else pure []

/-- Rule 4 with a fallible store. -/
def rule4E (q : QueryOracle) (now : Int) (event : AuditEvent) :
    Except Unit (List AlertReq) :=
  if event.action == "auth:login" && strTruthy event.actor_sub && strTruthy event.ip then
    match event.actor_sub with
    | some a => do
        let recent_ips ← q.distinctActorIps a (now - minutes 5)
        let unique_ips := recent_ips.filter (fun s => !(s == ""))
        pure (if 2 ≤ unique_ips.length then
          [⟨"IMPOSSIBLE_TRAVEL", "high",
            [("actor_sub", .optStr event.actor_sub), ("ips", .strList unique_ips),
              ("window_minutes", .num 5)], some event.id⟩]
        else [])
    | none => pure []
  else pure []

/-- Rule 5 with a fallible store. -/
def rule5E (q : QueryOracle) (now : Int) (event : AuditEvent) :
    Except Unit (List AlertReq) :=
  if event.action == "authz:denied" && strTruthy event.target &&
      (match event.target with
        | some t => strContains t "admin:"
        | none => false) then do
    let admin_denials ← q.countAdminDenials event.actor_sub (now - minutes 10)
    pure (if 3 ≤ admin_denials then
      [⟨"PRIVILEGE_ESCALATION_ATTEMPT", "high",
        [("actor_sub", .optStr event.actor_sub),
          ("denied_admin_actions", .num admin_denials),
          ("window_minutes", .num 10)], some event.id⟩]
    else [])
  else pure []

/-- `run_detections_for_event` over a fallible store: the Python body has no
`try`/`except`, so a raise inside any rule's query aborts the remaining rules
and propagates to the caller. -/
def run_detections_for_eventE (q : QueryOracle) (now : Int) (event : AuditEvent) :
    Except Unit (List AlertReq) := do
  let a1 ← rule1E q now event
  let a3 ← rule3E q now event
  let a4 ← rule4E q now event
  let a5 ← rule5E q now event
  pure (a1 ++ a3 ++ a4 ++ a5 ++ rule6aAlerts event ++ rule6bAlerts event)

/-- The honest oracle: every query succeeds and is answered from the given
audit trail. -/
def dbOracle (events : List AuditEvent) : QueryOracle where
  countAuthFail := fun ip cutoff => .ok (authFailBurstCount events ip cutoff)
  countAuthzDenied := fun actor cutoff => .ok (authzDeniedCount events actor cutoff)
  distinctActorIps := fun actor cutoff => .ok (distinctTravelIps events actor cutoff)
  countAdminDenials := fun actor cutoff => .ok (adminDenialCount events actor cutoff)

/-- The `SecurityAlert` rows created by a sequence of `_create_alert` calls,
ids assigned sequentially from `startId`. -/
def mkAlerts (startId : Nat) (now : Int) : List AlertReq → List SecurityAlert
  | [] => []
  | r :: rs =>
      { id := startId, ts := now, rule_id := r.rule_id, severity := r.severity,
        context := r.context, triage_status := "new",
        trigger_event_id := r.trigger_event_id, ticket_id := none } ::
        mkAlerts (startId + 1) now rs

/-- The audit event appended by `write_audit` / the local route helper, built
by `clear_audit_log` to record the purge itself. -/
def purgeEvent (db : DB) (now : Int) (sub upn ipAddr : Option String) : AuditEvent :=
  { id := db.nextEventId, ts := now, actor_sub := sub, actor_upn := upn, ip := ipAddr,
    action := "admin:clear_audit", target := some "audit_events", result := "success",
    reason := some ("deleted " ++ toString db.events.length ++ " events") }

/-- An empty store (fresh deployment): no rows, all counters at 1. -/
def db0 : DB :=
  { events := [], alerts := [], tickets := [],
    nextEventId := 1, nextAlertId := 1, nextTicketId := 1 }

/-- Scenario A input: an `auth:token_invalid` failure from one IP. -/
def inpFail : AuditInput :=
  { actor_sub := none, actor_upn := none, ip := some "9.9.9.9",
    action := "auth:token_invalid", target := some "api", result := "fail", reason := none }

/-- Scenario A: twelve `auth:token_invalid` events from the same IP recorded
through the pipeline within one minute (timestamps 0..11 s). -/
def db12 : DB := (List.range 12).foldl (fun d k => audit_and_detect d (k : Int) inpFail) db0

/-- A stored, not yet escalated alert. -/
def idorAlertRow : SecurityAlert :=
  { id := 1, ts := 0, rule_id := "INSECURE_IDOR_ACCESS", severity := "high",
    context := [], triage_status := "new", trigger_event_id := some 7, ticket_id := none }

/-- A store holding one unlinked alert. -/
def oneAlertDB : DB :=
  { events := [], alerts := [idorAlertRow], tickets := [],
    nextEventId := 1, nextAlertId := 2, nextTicketId := 1 }

/-- A stored alert already linked to ticket 5. -/
def linkedAlertRow : SecurityAlert :=
  { id := 1, ts := 0, rule_id := "AUTH_FAIL_BURST", severity := "high",
    context := [], triage_status := "investigating", trigger_event_id := some 7,
    ticket_id := some 5 }

/-- A store holding one alert already linked to a ticket. -/
def linkedAlertDB : DB :=
  { events := [], alerts := [linkedAlertRow], tickets := [],
    nextEventId := 1, nextAlertId := 2, nextTicketId := 6 }

/-- A blocked IDOR attempt by an anonymous actor. -/
def inpIdor : AuditInput :=
  { actor_sub := none, actor_upn := none, ip := some "8.8.8.8",
    action := "authz:denied", target := some "ticket:1", result := "fail",
    reason := some "IDOR prevented" }

/-- A non-login event of actor U1 carrying IP 1.1.1.1, in-window. -/
def denialEventU1 : AuditEvent :=
  { id := 1, ts := 100, actor_sub := some "U1", actor_upn := none, ip := some "1.1.1.1",
    action := "authz:denied", target := some "ticket:9", result := "fail", reason := none }

/-- A login of actor U1 thirty seconds later from a second IP. -/
def inpLoginU1 : AuditInput :=
  { actor_sub := some "U1", actor_upn := none, ip := some "2.2.2.2",
    action := "auth:login", target := some "api", result := "success", reason := none }

/-- A store whose only event is the non-login event of U1 from 1.1.1.1. -/
def dbTravel : DB := { db0 with events := [denialEventU1], nextEventId := 2 }

/-- An oracle whose rule-3 query raises (e.g. the store times out mid-scan)
while every other query would succeed. -/
def failOracle : QueryOracle where
  countAuthFail := fun _ _ => .ok 0
  countAuthzDenied := fun _ _ => .error ()
  distinctActorIps := fun _ _ => .ok []
  countAdminDenials := fun _ _ => .ok 0

/-- An event triggering rules 3, 5 and 6b at once: an authorization denial
of an admin-scoped target with reason "IDOR prevented". -/
def multiRuleEvent : AuditEvent :=
  { id := 1, ts := 0, actor_sub := some "mallory", actor_upn := none,
    ip := some "4.4.4.4", action := "authz:denied", target := some "admin:settings",
    result := "fail", reason := some "IDOR prevented" }

/-- Sample in-window auth failure (for the window-boundary witness). -/
def sampleFailEvent : AuditEvent :=
  { id := 1, ts := 750, actor_sub := some "u", actor_upn := none, ip := some "1.1.1.1",
    action := "auth:token_invalid", target := none, result := "fail", reason := none }

/-- Sample in-window admin-scoped denial (for the window-boundary witness). -/
def sampleDenyEvent : AuditEvent :=
  { id := 3, ts := 500, actor_sub := some "u", actor_upn := none, ip := some "1.1.1.1",
    action := "authz:denied", target := some "admin:settings", result := "fail",
    reason := none }

/-- Sample triggering login (for the window-boundary witness). -/
def sampleTriggerEvent : AuditEvent :=
  { id := 9, ts := 900, actor_sub := some "u", actor_upn := none, ip := some "2.2.2.2",
    action := "auth:login", target := none, result := "success", reason := none }

/-- A store with one committed event, id counter consistent. -/
def dbOneEvent : DB := { db0 with events := [sampleFailEvent], nextEventId := 2 }

/-- An authorization denial against an admin-scoped target. -/
def inpAdminDeny : AuditInput :=
  { actor_sub := some "mallory", actor_upn := none, ip := some "4.4.4.4",
    action := "authz:denied", target := some "admin:settings", result := "fail",
    reason := none }

/-- Scenario B, first login: U1 from IP 1.1.1.1. -/
def loginEventU1a : AuditEvent :=
  { id := 1, ts := 100, actor_sub := some "U1", actor_upn := none, ip := some "1.1.1.1",
    action := "auth:login", target := some "api", result := "success", reason := none }

/-- Scenario B, second login: U1 from IP 2.2.2.2 thirty seconds later. -/
def loginEventU1b : AuditEvent :=
  { id := 2, ts := 130, actor_sub := some "U1", actor_upn := none, ip := some "2.2.2.2",
    action := "auth:login", target := some "api", result := "success", reason := none }

/-- The committed trail of Scenario B at the second login. -/
def dbTravelB : DB := { db0 with events := [loginEventU1a, loginEventU1b], nextEventId := 3 }

/-- A single committed auth failure (the event object handed to the rules). -/
def failEvent1 : AuditEvent :=
  { id := 1, ts := 0, actor_sub := none, actor_upn := none, ip := some "9.9.9.9",
    action := "auth:token_invalid", target := some "api", result := "fail", reason := none }

lemma foldl_create_alert (now : Int) (rs : List AlertReq) : ∀ db : DB,
    rs.foldl (fun d r => _create_alert d now r) db =
      { db with alerts := db.alerts ++ mkAlerts db.nextAlertId now rs,
                nextAlertId := db.nextAlertId + rs.length } := by
  induction rs with
  | nil => intro db; simp [mkAlerts]
  | cons r rs ih =>
      intro db
      rw [List.foldl_cons, ih]
      simp only [_create_alert, mkAlerts, List.length_cons]
      rw [List.append_assoc, List.singleton_append]
      congr 1
      omega

/-- `run_detections_for_event` appends exactly the rows for the emitted
alert requests and advances the alert id counter; nothing else changes. -/
lemma run_detections_eq (db : DB) (now : Int) (event : AuditEvent) :
    run_detections_for_event db now event =
      { db with
        alerts := db.alerts ++ mkAlerts db.nextAlertId now (detectionAlerts db.events now event),
        nextAlertId := db.nextAlertId + (detectionAlerts db.events now event).length } :=
  foldl_create_alert now _ db

lemma rule1Alerts_action_ne (events : List AuditEvent) (now : Int) (event : AuditEvent)
    (h : event.action ≠ "auth:token_invalid") : rule1Alerts events now event = [] := by
  simp [rule1Alerts, h]

lemma rule3Alerts_action_ne (events : List AuditEvent) (now : Int) (event : AuditEvent)
    (h : event.action ≠ "authz:denied") : rule3Alerts events now event = [] := by
  simp [rule3Alerts, h]

lemma rule4Alerts_action_ne (events : List AuditEvent) (now : Int) (event : AuditEvent)
    (h : event.action ≠ "auth:login") : rule4Alerts events now event = [] := by
  simp [rule4Alerts, h]

lemma rule5Alerts_action_ne (events : List AuditEvent) (now : Int) (event : AuditEvent)
    (h : event.action ≠ "authz:denied") : rule5Alerts events now event = [] := by
  simp [rule5Alerts, h]

lemma rule6aAlerts_action_ne (event : AuditEvent)
    (h : event.action ≠ "tickets:read_insecure") : rule6aAlerts event = [] := by
  simp [rule6aAlerts, h]

lemma rule6bAlerts_action_ne (event : AuditEvent)
    (h : event.action ≠ "authz:denied") : rule6bAlerts event = [] := by
  simp [rule6bAlerts, h]

lemma maxIdEvent_pick_mem (es : List AuditEvent) : ∀ e : AuditEvent,
    es.foldl (fun acc x => if acc.id < x.id then x else acc) e = e ∨
      es.foldl (fun acc x => if acc.id < x.id then x else acc) e ∈ es := by
  induction es with
  | nil => intro e; left; rfl
  | cons x xs ih =>
      intro e
      simp only [List.foldl_cons]
      rcases ih (if e.id < x.id then x else e) with h | h
      · rw [h]
        by_cases hx : e.id < x.id
        · right; simp [hx]
        · left; simp [hx]
      · right; exact List.mem_cons_of_mem _ h

/-- If a trailing element has strictly the largest id, the
`order_by(desc(id)).first()` query returns it. -/
lemma maxIdEvent_append (es : List AuditEvent) (ev : AuditEvent)
    (h : ∀ e ∈ es, e.id < ev.id) : maxIdEvent (es ++ [ev]) = some ev := by
  cases es with
  | nil => rfl
  | cons e es' =>
      simp only [maxIdEvent, List.cons_append, List.foldl_append, List.foldl_cons,
        List.foldl_nil, Option.some.injEq]
      rcases maxIdEvent_pick_mem es' e with hm | hm
      · rw [hm]
        have := h e (List.mem_cons_self _ _)
        simp [this]
      · have := h _ (List.mem_cons_of_mem _ hm)
        simp [this]

lemma rule1E_dbOracle (events : List AuditEvent) (now : Int) (event : AuditEvent) :
    rule1E (dbOracle events) now event = .ok (rule1Alerts events now event) := by
  unfold rule1E rule1Alerts dbOracle
  split
  · split <;> rfl
  · rfl

lemma rule3E_dbOracle (events : List AuditEvent) (now : Int) (event : AuditEvent) :
    rule3E (dbOracle events) now event = .ok (rule3Alerts events now event) := by
  unfold rule3E rule3Alerts dbOracle
  split <;> rfl

lemma rule4E_dbOracle (events : List AuditEvent) (now : Int) (event : AuditEvent) :
    rule4E (dbOracle events) now event = .ok (rule4Alerts events now event) := by
  unfold rule4E rule4Alerts dbOracle impossibleTravelIps
  split
  · split <;> rfl
  · rfl

lemma rule5E_dbOracle (events : List AuditEvent) (now : Int) (event : AuditEvent) :
    rule5E (dbOracle events) now event = .ok (rule5Alerts events now event) := by
  unfold rule5E rule5Alerts dbOracle
  split <;> rfl

/-- With an honest store the fallible engine computes exactly the alert
requests of the pure engine. -/
lemma run_detections_for_eventE_dbOracle (events : List AuditEvent) (now : Int)
    (event : AuditEvent) :
    run_detections_for_eventE (dbOracle events) now event =
      .ok (detectionAlerts events now event) := by
  simp [run_detections_for_eventE, rule1E_dbOracle, rule3E_dbOracle, rule4E_dbOracle,
    rule5E_dbOracle, detectionAlerts, Bind.bind, Except.bind, Pure.pure, Except.pure]

/-- An event whose action matches no rule trigger leaves the store unchanged. -/
lemma run_detections_no_rule (db : DB) (now : Int) (event : AuditEvent)
    (h1 : event.action ≠ "auth:token_invalid") (h3 : event.action ≠ "authz:denied")
    (h4 : event.action ≠ "auth:login") (h6 : event.action ≠ "tickets:read_insecure") :
    run_detections_for_event db now event = db := by
  rw [run_detections_eq]
  simp [detectionAlerts, rule1Alerts_action_ne _ _ _ h1, rule3Alerts_action_ne _ _ _ h3,
    rule4Alerts_action_ne _ _ _ h4, rule5Alerts_action_ne _ _ _ h3,
    rule6aAlerts_action_ne _ h6, rule6bAlerts_action_ne _ h3, mkAlerts]

lemma length_filter_append_one {α : Type} (p : α → Bool) (l : List α) (e : α)
    (h : p e = true) :
    (List.filter p (l ++ [e])).length = (List.filter p l).length + 1 := by
  simp [List.filter_append, List.filter, h]

/-- An appended event of the actor carrying an in-window non-empty IP appears
in the distinct-IP set of rule 4. -/
lemma mem_impossibleTravelIps_append (l : List AuditEvent) (e : AuditEvent)
    (a ip' : String) (cutoff : Int) (hsub : e.actor_sub = some a)
    (hip : e.ip = some ip') (hne : ip' ≠ "") (hts : cutoff ≤ e.ts) :
    ip' ∈ impossibleTravelIps (l ++ [e]) a cutoff := by
  unfold impossibleTravelIps distinctTravelIps
  simp only [List.mem_filter, List.mem_dedup, List.mem_filterMap, List.mem_append]
  refine ⟨⟨e, ⟨Or.inr (by simp), ?_⟩, hip⟩, by simp [hne]⟩
  simp [travelIpMatch, hsub, hip, decide_eq_true_eq, hts]


/-- C2: for every windowed rule (AUTH_FAIL_BURST, REPEATED_AUTHZ_DENIED,
IMPOSSIBLE_TRAVEL, PRIVILEGE_ESCALATION_ATTEMPT), as long as the rule is
evaluated no earlier than the triggering event's timestamp (`event.ts ≤ now`,
which holds because the event is committed with `ts = now()` before the rule
runs), every event that passes the rule's row filter — and hence every event
counted toward the rule's threshold, the counts being the lengths of exactly
these filters — lies within the window measured backward from the triggering
event's timestamp: no older event is ever counted. -/
theorem c2_no_event_outside_window_counted (events : List AuditEvent) (now : Int)
    (event : AuditEvent) (p a : String) (actor : Option String)
    (hnow : event.ts ≤ now) :
    (∀ e' ∈ events.filter (authFailMatch p (now - minutes 5)),
        event.ts - minutes 5 ≤ e'.ts) ∧
    (∀ e' ∈ events.filter (authzDeniedMatch actor (now - minutes 10)),
        event.ts - minutes 10 ≤ e'.ts) ∧
    (∀ e' ∈ events.filter (travelIpMatch a (now - minutes 5)),
        event.ts - minutes 5 ≤ e'.ts) ∧
    (∀ e' ∈ events.filter (adminDenialMatch actor (now - minutes 10)),
        event.ts - minutes 10 ≤ e'.ts) := by
  refine ⟨?_, ?_, ?_, ?_⟩ <;> intro e' he' <;>
    simp only [List.mem_filter, authFailMatch, authzDeniedMatch, travelIpMatch,
      adminDenialMatch, Bool.and_eq_true, decide_eq_true_eq, minutes] at he' <;>
    simp only [minutes] <;>
    · have := he'.2.2
      omega

/-- Witness for C2 at a concrete trail: a trigger at t = 900 and matching
events at t = 750 (5-minute rules) and t = 500 (10-minute rules). -/
theorem c2_no_event_outside_window_counted_witness :
    (sampleTriggerEvent.ts - minutes 5 ≤ sampleFailEvent.ts) ∧
    (sampleTriggerEvent.ts - minutes 10 ≤ sampleDenyEvent.ts) ∧
    (sampleTriggerEvent.ts - minutes 5 ≤ sampleFailEvent.ts) ∧
    (sampleTriggerEvent.ts - minutes 10 ≤ sampleDenyEvent.ts) := by
  have h := c2_no_event_outside_window_counted [sampleFailEvent, sampleDenyEvent] 1000
    sampleTriggerEvent "1.1.1.1" "u" (some "u") (by decide)
  exact ⟨h.1 sampleFailEvent (by decide), h.2.1 sampleDenyEvent (by decide),
    h.2.2.1 sampleFailEvent (by decide), h.2.2.2 sampleDenyEvent (by decide)⟩

/-- C7: `linkTicket` (the escalate handler) fails with NotFound when the
alert id does not exist; on an alert already linked to ticket `t` (a real
ticket id, hence nonzero) it returns the existing ticket id with the store
untouched — no second ticket, no status change, no audit write; and,
concretely, escalating an unlinked alert and then escalating again returns
the first call's ticket id and leaves exactly one ticket in the store. -/
theorem c7_escalate_idempotent (db : DB) (now : Int)
    (sub upn ipAddr : Option String) (aid : Nat) :
    (db.alerts.find? (fun al => al.id == aid) = none →
      escalate_alert db now true sub upn ipAddr aid = .error (.NotFound, db)) ∧
    (∀ al t, db.alerts.find? (fun al => al.id == aid) = some al → al.ticket_id = some t →
      t ≠ 0 → escalate_alert db now true sub upn ipAddr aid = .ok (db, t)) ∧
    (((escalate_alert oneAlertDB 0 true (some "admin") none none 1).toOption.map
        (fun pr => pr.2) = some 1) ∧
      ((do
          let pr ← (escalate_alert oneAlertDB 0 true (some "admin") none none 1).toOption
          (escalate_alert pr.1 0 true (some "admin") none none 1).toOption) =
        (escalate_alert oneAlertDB 0 true (some "admin") none none 1).toOption) ∧
      ((escalate_alert oneAlertDB 0 true (some "admin") none none 1).toOption.map
        (fun pr => pr.1.tickets.length) = some 1)) := by
  refine ⟨?_, ?_, ?_⟩
  · intro h
    unfold escalate_alert
    simp [h]
  · intro al t hfind ht htne
    unfold escalate_alert
    simp [hfind, ht, natTruthy, htne]
  · set_option maxRecDepth 40000 in decide

/-- Witness for C7: a missing alert id yields NotFound, and an alert already
linked to ticket 5 yields the original link with the store unchanged. -/
theorem c7_escalate_idempotent_witness :
    (escalate_alert db0 0 true none none none 99 = .error (.NotFound, db0)) ∧
    (escalate_alert linkedAlertDB 0 true (some "admin") none none 1 =
      .ok (linkedAlertDB, 5)) := by
  refine ⟨(c7_escalate_idempotent db0 0 none none none 99).1 (by decide), ?_⟩
  exact (c7_escalate_idempotent linkedAlertDB 0 (some "admin") none none 1).2.1
    linkedAlertRow 5 (by decide) (by decide) (by decide)

/-- C8: `setStatus` (the alert-status handler) fails with NotFound when the
alert id does not exist, and rejects any status outside
new/investigating/resolved/false_positive (including a missing status) with
InvalidStatus; every such error is raised with the store exactly as it was —
no mutation of the alert or anything else precedes it. -/
theorem c8_set_status_rejects_invalid (db : DB) (now : Int)
    (sub upn ipAddr : Option String) (aid : Nat) :
    (∀ st, db.alerts.find? (fun al => al.id == aid) = none →
        update_alert_status db now true sub upn ipAddr aid st = .error (.NotFound, db)) ∧
    (∀ al, db.alerts.find? (fun al => al.id == aid) = some al →
        update_alert_status db now true sub upn ipAddr aid none =
          .error (.InvalidStatus, db)) ∧
    (∀ al s, db.alerts.find? (fun al => al.id == aid) = some al →
        (["new", "investigating", "resolved", "false_positive"].contains s) = false →
        update_alert_status db now true sub upn ipAddr aid (some s) =
          .error (.InvalidStatus, db)) := by
  refine ⟨?_, ?_, ?_⟩
  · intro st h
    unfold update_alert_status
    simp [h]
  · intro al h
    unfold update_alert_status
    simp [h]
  · intro al s h hs
    unfold update_alert_status
    simp [h]
    simpa using hs

/-- Witness for C8: a missing id yields NotFound; a missing or out-of-set
status value on an existing alert yields InvalidStatus, store untouched. -/
theorem c8_set_status_rejects_invalid_witness :
    (update_alert_status oneAlertDB 0 true none none none 99 (some "resolved") =
      .error (.NotFound, oneAlertDB)) ∧
    (update_alert_status oneAlertDB 0 true none none none 1 none =
      .error (.InvalidStatus, oneAlertDB)) ∧
    (update_alert_status oneAlertDB 0 true none none none 1 (some "closed") =
      .error (.InvalidStatus, oneAlertDB)) :=
  ⟨(c8_set_status_rejects_invalid oneAlertDB 0 none none none 99).1
      (some "resolved") (by decide),
    (c8_set_status_rejects_invalid oneAlertDB 0 none none none 1).2.1
      idorAlertRow (by decide),
    (c8_set_status_rejects_invalid oneAlertDB 0 none none none 1).2.2
      idorAlertRow "closed" (by decide) (by decide)⟩

/-- C10: the two ingestion pipelines — `audit.audit_and_detect`, which runs
the rules on the event object it just committed, and the local helper of
`routes_tickets.py` / `routes_admin.py`, which calls `write_audit` and then
re-queries the event with the maximal id — coincide on every store whose
event ids are below the id counter (every reachable store): both run the
rules on the just-written event and hence produce the same alerts. -/
theorem c10_route_helper_equals_audit_pipeline (db : DB) (now : Int) (inp : AuditInput)
    (hinv : ∀ e ∈ db.events, e.id < db.nextEventId) :
    audit_and_detect_routes db now inp = audit_and_detect db now inp := by
  unfold audit_and_detect_routes audit_and_detect write_audit
  have h : maxIdEvent ((write_event db now inp).1).events = some (write_event db now inp).2 := by
    unfold write_event
    exact maxIdEvent_append _ _ hinv
  simp only [h]

/-- Witness for C10 on a store with one committed event. -/
theorem c10_route_helper_equals_audit_pipeline_witness :
    audit_and_detect_routes dbOneEvent 5 inpFail = audit_and_detect dbOneEvent 5 inpFail :=
  c10_route_helper_equals_audit_pipeline dbOneEvent 5 inpFail (by decide)

/-- C5 (code bug): the claim — and `models.py`'s own column documentation
(`# low/med/high`), and the severity of every other rule — require severity
values in the set `low`/`med`/`high`, but `detections.py` line 108 creates
every BLOCKED_IDOR_ATTEMPT alert with severity `"medium"`.  Evaluating the
pipeline on an `authz:denied` event with reason "IDOR prevented" yields
exactly one alert, a BLOCKED_IDOR_ATTEMPT with severity `"medium"`, which is
outside the enumerated set. -/
theorem c5_blocked_idor_severity_outside_enum :
    ((audit_and_detect db0 0 inpIdor).alerts.map (fun al => al.rule_id) =
      ["BLOCKED_IDOR_ATTEMPT"]) ∧
    ((audit_and_detect db0 0 inpIdor).alerts.map (fun al => al.severity) = ["medium"]) ∧
    ((["low", "med", "high"].contains "medium") = false) := by
  decide

/-- C6 counterexample: deleting the single stored alert succeeds, and bulk
purging all alerts succeeds, while the audit trail stays completely empty —
neither deletion leaves any audit record, refuting "every deletion … is
itself recorded as its own audit record". -/
theorem c6_alert_deletions_leave_no_audit_record :
    ((delete_alert oneAlertDB 0 true none none 1).toOption.map
        (fun d => (d.events, d.alerts)) = some ([], [])) ∧
    ((clear_all_alerts oneAlertDB 0 true none none).toOption.map
        (fun pr => (pr.1.events, pr.1.alerts, pr.2)) = some ([], [], 1)) := by
  decide

/-- C6 amended: only the bulk audit purge is recorded as its own audit
record — the cleared log's sole entry is the purge event itself (and the
purge action triggers no detection rule, so nothing else changes); the
single alert delete and the bulk alert purge succeed while writing no audit
record at all (the store they return has its `events` untouched). -/
theorem c6_only_audit_purge_is_self_audited (db : DB) (now : Int)
    (sub upn ipAddr : Option String) (aid : Nat) :
    (clear_audit_log db now true sub upn ipAddr =
      .ok ({ db with events := [purgeEvent db now sub upn ipAddr],
                     nextEventId := db.nextEventId + 1 }, db.events.length)) ∧
    (∀ al, db.alerts.find? (fun x => x.id == aid) = some al →
        delete_alert db now true sub upn aid =
          .ok { db with alerts := db.alerts.eraseP (fun x => x.id == aid) }) ∧
    (clear_all_alerts db now true sub upn = .ok ({ db with alerts := [] }, db.alerts.length)) := by
  refine ⟨?_, ?_, ?_⟩
  · unfold clear_audit_log audit_and_detect_routes write_audit write_event purgeEvent
    have hmax : ∀ (e : AuditEvent), maxIdEvent [e] = some e := fun e => rfl
    simp only [Bool.not_true, Bool.false_eq_true, if_false, List.nil_append, hmax]
    rw [run_detections_no_rule _ _ _ (by simp) (by simp) (by simp) (by simp)]
  · intro al h
    unfold delete_alert
    simp [h]
  · rfl

/-- Witness for the amended C6 on a store holding one alert and no events:
the audit purge leaves exactly its own record; the alert deletions leave the
(empty) audit trail empty. -/
theorem c6_only_audit_purge_is_self_audited_witness :
    (clear_audit_log oneAlertDB 0 true none none none =
      .ok ({ oneAlertDB with events := [purgeEvent oneAlertDB 0 none none none],
                             nextEventId := 2 }, 0)) ∧
    (delete_alert oneAlertDB 0 true none none 1 =
      .ok { oneAlertDB with alerts := oneAlertDB.alerts.eraseP (fun x => x.id == 1) }) ∧
    (clear_all_alerts oneAlertDB 0 true none none = .ok ({ oneAlertDB with alerts := [] }, 1)) :=
  ⟨(c6_only_audit_purge_is_self_audited oneAlertDB 0 none none none 1).1,
    (c6_only_audit_purge_is_self_audited oneAlertDB 0 none none none 1).2.1
      idorAlertRow (by decide),
    (c6_only_audit_purge_is_self_audited oneAlertDB 0 none none none 1).2.2⟩

/-- C9: `audit_and_detect` commits the audit event and only then runs the
detection rules — the rules are evaluated against the post-commit trail,
which is the prior trail plus the new event; consequently every windowed
query sees the triggering event, and each rule's in-window count over the
post-commit trail is the prior in-window count plus one whenever the
triggering event matches that rule (in particular a lone qualifying event
yields count 1, never 0), and for rule 4 the triggering login's own IP is
always among the distinct in-window IPs. -/
theorem c9_commit_precedes_detection (db : DB) (now : Int) (inp : AuditInput) :
    (audit_and_detect db now inp =
      run_detections_for_event (write_event db now inp).1 now (write_event db now inp).2) ∧
    ((write_event db now inp).1.events = db.events ++ [(write_event db now inp).2]) ∧
    (∀ ip, inp.action = "auth:token_invalid" → inp.ip = some ip →
      authFailBurstCount (write_event db now inp).1.events ip (now - minutes 5) =
        authFailBurstCount db.events ip (now - minutes 5) + 1) ∧
    (inp.action = "authz:denied" →
      authzDeniedCount (write_event db now inp).1.events inp.actor_sub (now - minutes 10) =
        authzDeniedCount db.events inp.actor_sub (now - minutes 10) + 1) ∧
    (∀ a ip, inp.actor_sub = some a → inp.ip = some ip → ip ≠ "" →
      ip ∈ impossibleTravelIps (write_event db now inp).1.events a (now - minutes 5)) ∧
    (∀ t, inp.action = "authz:denied" → inp.target = some t →
      strContains t "admin:" = true →
      adminDenialCount (write_event db now inp).1.events inp.actor_sub (now - minutes 10) =
        adminDenialCount db.events inp.actor_sub (now - minutes 10) + 1) := by
  refine ⟨rfl, rfl, ?_, ?_, ?_, ?_⟩
  · intro ip hact hip
    unfold write_event authFailBurstCount
    exact length_filter_append_one _ _ _
      (by simp [authFailMatch, hact, hip, minutes, decide_eq_true_eq])
  · intro hact
    unfold write_event authzDeniedCount
    exact length_filter_append_one _ _ _
      (by simp [authzDeniedMatch, hact, minutes, decide_eq_true_eq])
  · intro a ip hsub hip hne
    exact mem_impossibleTravelIps_append _ _ _ _ _ hsub hip hne
      (by simp only [minutes]; omega)
  · intro t hact htgt hcont
    unfold write_event adminDenialCount
    exact length_filter_append_one _ _ _
      (by simp [adminDenialMatch, hact, htgt, hcont, minutes, decide_eq_true_eq])

/-- Witness for C9: on the empty store each rule's count after the commit is
0 + 1, and the login's own IP is in the rule-4 distinct set. -/
theorem c9_commit_precedes_detection_witness :
    (authFailBurstCount (write_event db0 0 inpFail).1.events "9.9.9.9" (0 - minutes 5) =
      authFailBurstCount db0.events "9.9.9.9" (0 - minutes 5) + 1) ∧
    (authzDeniedCount (write_event db0 0 inpIdor).1.events none (0 - minutes 10) =
      authzDeniedCount db0.events none (0 - minutes 10) + 1) ∧
    ("2.2.2.2" ∈ impossibleTravelIps (write_event db0 0 inpLoginU1).1.events "U1"
      (0 - minutes 5)) ∧
    (adminDenialCount (write_event db0 0 inpAdminDeny).1.events (some "mallory")
        (0 - minutes 10) =
      adminDenialCount db0.events (some "mallory") (0 - minutes 10) + 1) :=
  ⟨(c9_commit_precedes_detection db0 0 inpFail).2.2.1 "9.9.9.9" rfl rfl,
    (c9_commit_precedes_detection db0 0 inpIdor).2.2.2.1 rfl,
    (c9_commit_precedes_detection db0 0 inpLoginU1).2.2.2.2.1 "U1" "2.2.2.2" rfl rfl
      (by decide),
    (c9_commit_precedes_detection db0 0 inpAdminDeny).2.2.2.2.2 "admin:settings" rfl rfl
      (by decide)⟩

/-- C1 counterexample: the rule-4 query filters only on actor, non-null IP
and the window — not on the action column.  With a trail whose only prior
event is an `authz:denied` of actor U1 from 1.1.1.1, a login by U1 from
2.2.2.2 fires IMPOSSIBLE_TRAVEL reporting `["1.1.1.1","2.2.2.2"]`, although
the trail holds exactly one distinct login IP ("2.2.2.2" of the trigger
itself): under the claim ("drawn only from login events of that actor") the
set would be a singleton and the rule would not even fire. -/
theorem c1_nonlogin_events_contribute_ips :
    ((audit_and_detect dbTravel 130 inpLoginU1).alerts.map
        (fun al => (al.rule_id, al.context.lookup "ips")) =
      [("IMPOSSIBLE_TRAVEL", some (.strList ["1.1.1.1", "2.2.2.2"]))]) ∧
    ((((audit_and_detect dbTravel 130 inpLoginU1).events.filter
        (fun e => e.action == "auth:login")).filterMap (fun e => e.ip)).dedup =
      ["2.2.2.2"]) := by
  decide

/-- C1 amended: on a login event with actor and non-empty IP present, the
engine fires IMPOSSIBLE_TRAVEL exactly when the distinct non-empty IPs among
ALL in-window events of that actor (regardless of action) number at least 2,
appending one alert whose context lists exactly that distinct-IP set; in
particular it fires on the event at which that set first reaches two IPs,
and non-login events of the actor do contribute IPs. -/
theorem c1_travel_counts_all_actor_ips (db : DB) (now : Int) (event : AuditEvent)
    (a : String) (ha : event.action = "auth:login") (hsub : event.actor_sub = some a)
    (hane : a ≠ "") (hip : strTruthy event.ip = true) :
    run_detections_for_event db now event =
      if 2 ≤ (impossibleTravelIps db.events a (now - minutes 5)).length then
        _create_alert db now
          ⟨"IMPOSSIBLE_TRAVEL", "high",
            [("actor_sub", .optStr (some a)),
              ("ips", .strList (impossibleTravelIps db.events a (now - minutes 5))),
              ("window_minutes", .num 5)], some event.id⟩
      else db := by
  have h1 := rule1Alerts_action_ne db.events now event (by simp [ha])
  have h3 := rule3Alerts_action_ne db.events now event (by simp [ha])
  have h5 := rule5Alerts_action_ne db.events now event (by simp [ha])
  have h6a := rule6aAlerts_action_ne event (by simp [ha])
  have h6b := rule6bAlerts_action_ne event (by simp [ha])
  have h4 : rule4Alerts db.events now event =
      if 2 ≤ (impossibleTravelIps db.events a (now - minutes 5)).length then
        [⟨"IMPOSSIBLE_TRAVEL", "high",
          [("actor_sub", .optStr (some a)),
            ("ips", .strList (impossibleTravelIps db.events a (now - minutes 5))),
            ("window_minutes", .num 5)], some event.id⟩]
      else [] := by
    have hat : strTruthy (some a) = true := by simp [strTruthy, hane]
    simp [rule4Alerts, ha, hsub, hat, hip]
  rw [run_detections_eq]
  simp only [detectionAlerts, h1, h3, h4, h5, h6a, h6b, List.append_nil, List.nil_append]
  by_cases hc : 2 ≤ (impossibleTravelIps db.events a (now - minutes 5)).length
  · simp [hc, mkAlerts, _create_alert]
  · simp [hc, mkAlerts]

/-- Witness for the amended C1: Scenario B's second login, where the theorem
applies with all side conditions discharged. -/
theorem c1_travel_counts_all_actor_ips_witness :
    run_detections_for_event dbTravelB 130 loginEventU1b =
      if 2 ≤ (impossibleTravelIps dbTravelB.events "U1" (130 - minutes 5)).length then
        _create_alert dbTravelB 130
          ⟨"IMPOSSIBLE_TRAVEL", "high",
            [("actor_sub", .optStr (some "U1")),
              ("ips", .strList (impossibleTravelIps dbTravelB.events "U1" (130 - minutes 5))),
              ("window_minutes", .num 5)], some loginEventU1b.id⟩
      else dbTravelB :=
  c1_travel_counts_all_actor_ips dbTravelB 130 loginEventU1b "U1" rfl rfl
    (by decide) (by decide)

/-- C3 counterexample: recording twelve `auth:token_invalid` events from one
IP within a minute does produce exactly three AUTH_FAIL_BURST alerts, on the
10th, 11th and 12th events, with running counts 10, 11, 12 — but the context
carries them under the key `count_5m`; no alert has a context field named
`count`, so "context field `count` equals the running in-window count" fails
on every one of the three alerts. -/
theorem c3_burst_context_key_is_count_5m :
    (db12.alerts.map (fun al => al.rule_id) =
      ["AUTH_FAIL_BURST", "AUTH_FAIL_BURST", "AUTH_FAIL_BURST"]) ∧
    (db12.alerts.map (fun al => al.context.lookup "count") = [none, none, none]) ∧
    (db12.alerts.map (fun al => al.context.lookup "count_5m") =
      [some (.num 10), some (.num 11), some (.num 12)]) ∧
    (db12.alerts.map (fun al => al.trigger_event_id) = [some 10, some 11, some 12]) := by
  set_option maxRecDepth 40000 in decide

/-- C3 amended: on every `auth:token_invalid` event with a non-empty IP the
engine appends exactly one AUTH_FAIL_BURST alert iff the in-window count
(triggering event included) has reached 10, with the running count reported
under the context key `count_5m` — there is no deduplication, so the 10th
and every later qualifying event each yield one alert; twelve such events in
one minute yield exactly three alerts with counts 10, 11, 12. -/
theorem c3_burst_fires_from_tenth_onward (db : DB) (now : Int) (event : AuditEvent)
    (p : String) (ha : event.action = "auth:token_invalid") (hip : event.ip = some p)
    (hpne : p ≠ "") :
    (run_detections_for_event db now event =
      if 10 ≤ authFailBurstCount db.events p (now - minutes 5) then
        _create_alert db now
          ⟨"AUTH_FAIL_BURST", "high",
            [("ip", .optStr (some p)),
              ("count_5m", .num (authFailBurstCount db.events p (now - minutes 5)))],
            some event.id⟩
      else db) ∧
    (db12.alerts.map (fun al => (al.rule_id, al.context.lookup "count_5m", al.trigger_event_id)) =
      [("AUTH_FAIL_BURST", some (.num 10), some 10),
        ("AUTH_FAIL_BURST", some (.num 11), some 11),
        ("AUTH_FAIL_BURST", some (.num 12), some 12)]) := by
  constructor
  · have h3 := rule3Alerts_action_ne db.events now event (by simp [ha])
    have h4 := rule4Alerts_action_ne db.events now event (by simp [ha])
    have h5 := rule5Alerts_action_ne db.events now event (by simp [ha])
    have h6a := rule6aAlerts_action_ne event (by simp [ha])
    have h6b := rule6bAlerts_action_ne event (by simp [ha])
    have hit : strTruthy (some p) = true := by simp [strTruthy, hpne]
    have h1 : rule1Alerts db.events now event =
        if 10 ≤ authFailBurstCount db.events p (now - minutes 5) then
          [⟨"AUTH_FAIL_BURST", "high",
            [("ip", .optStr (some p)),
              ("count_5m", .num (authFailBurstCount db.events p (now - minutes 5)))],
            some event.id⟩]
        else [] := by
      simp [rule1Alerts, ha, hip, hit]
    rw [run_detections_eq]
    simp only [detectionAlerts, h1, h3, h4, h5, h6a, h6b, List.append_nil, List.nil_append]
    by_cases hc : 10 ≤ authFailBurstCount db.events p (now - minutes 5)
    · simp [hc, mkAlerts, _create_alert]
    · simp [hc, mkAlerts]
  · set_option maxRecDepth 40000 in decide

/-- Witness for the amended C3: a lone committed auth failure, where the
theorem applies with its side conditions discharged (count 1 < 10, so the
store is returned unchanged). -/
theorem c3_burst_fires_from_tenth_onward_witness :
    run_detections_for_event dbOneEvent 0 failEvent1 =
      if 10 ≤ authFailBurstCount dbOneEvent.events "9.9.9.9" (0 - minutes 5) then
        _create_alert dbOneEvent 0
          ⟨"AUTH_FAIL_BURST", "high",
            [("ip", .optStr (some "9.9.9.9")),
              ("count_5m", .num (authFailBurstCount dbOneEvent.events "9.9.9.9" (0 - minutes 5)))],
            some failEvent1.id⟩
      else dbOneEvent :=
  (c3_burst_fires_from_tenth_onward dbOneEvent 0 failEvent1 "9.9.9.9" rfl rfl
    (by decide)).1

/-- C4 counterexample: the body of `run_detections_for_event` has no
`try`/`except`, so when rule 3's store query raises on an event that also
matches rules 5 and 6 (an `authz:denied` of an admin target with reason
"IDOR prevented"), the whole call fails: the later rules are never
evaluated, no alert at all is recorded — although with a healthy store the
same event provably yields a BLOCKED_IDOR_ATTEMPT alert — and the failure
propagates to the caller instead of being swallowed. -/
theorem c4_rule_failure_aborts_and_rethrows :
    ((run_detections_for_eventE failOracle 0 multiRuleEvent).toOption = none) ∧
    ((run_detections_for_eventE (dbOracle [multiRuleEvent]) 0 multiRuleEvent).toOption =
      some [⟨"BLOCKED_IDOR_ATTEMPT", "medium",
        [("actor_sub", .optStr (some "mallory")),
          ("target", .optStr (some "admin:settings")),
          ("reason", .str "access_control_enforced")], some 1⟩]) := by
  constructor
  · decide
  · decide

/-- C4 amended: a failure inside one rule's query is not isolated — if rule
3's query raises, the rules after it are not evaluated and the failure
propagates to the caller of `run_detections_for_event` as the result of the
whole call; what does survive is the already-committed audit record, since
detection never writes the audit trail, and with a healthy store the engine
emits exactly the rules' alerts. -/
theorem c4_failure_propagates_audit_intact (q : QueryOracle) (now : Int)
    (event : AuditEvent) (ha : event.action = "authz:denied")
    (hsub : strTruthy event.actor_sub = true)
    (hq : q.countAuthzDenied event.actor_sub (now - minutes 10) = .error ()) :
    (run_detections_for_eventE q now event = .error ()) ∧
    (∀ db : DB, (run_detections_for_event db now event).events = db.events) ∧
    (∀ events : List AuditEvent,
      run_detections_for_eventE (dbOracle events) now event =
        .ok (detectionAlerts events now event)) := by
  refine ⟨?_, ?_, ?_⟩
  · simp [run_detections_for_eventE, rule1E, rule3E, ha, hsub, hq, Bind.bind, Except.bind,
      Pure.pure, Except.pure]
  · intro db
    rw [run_detections_eq]
  · intro events
    exact run_detections_for_eventE_dbOracle events now event

/-- Witness for the amended C4 at the failing oracle and the multi-rule
event. -/
theorem c4_failure_propagates_audit_intact_witness :
    (run_detections_for_eventE failOracle 0 multiRuleEvent = .error ()) ∧
    ((run_detections_for_event dbTravel 0 multiRuleEvent).events = dbTravel.events) ∧
    (run_detections_for_eventE (dbOracle []) 0 multiRuleEvent =
      .ok (detectionAlerts [] 0 multiRuleEvent)) := by
  have h := c4_failure_propagates_audit_intact failOracle 0 multiRuleEvent rfl
    (by decide) rfl
  exact ⟨h.1, h.2.1 dbTravel, h.2.2 []⟩
